import Mathlib

/-!
Verification of the Anapico APSINXXG signal-generator driver
(`src/pymeasure/instruments/anapico/apsinXXG.py`) against its
natural-language specification.

The driver file is declarative glue over the pymeasure framework
(`Instrument.control`, the validators, the dynamic-property machinery and
the transport). Only the driver file is present in `src/`; the framework
parts are modelled from the spec where noted, while every literal string,
bound and command below is copied from the driver source.

Numeric instrument values are embedded as rationals (`ℚ`); the transport is
embedded as the list of command strings written so far, and every operation
is explicit state passing on the instrument record.
-/

deriving instance DecidableEq for Except

namespace APSIN

/-- Error taxonomy of the spec (section 7). -/
inductive PymeasureError where
  | OutOfRangeError
  | InvalidChoiceError
  | UnsupportedOverrideError
  | CommunicationError
  | ParseError
  deriving DecidableEq, Repr

/-- `FREQ_LIMIT = [100e3, 12e9]` from the driver source, as a (min, max) pair. -/
def FREQ_LIMIT : ℚ × ℚ := (100000, 12000000000)

/-- `POW_LIMIT = [-20, 15]` from the driver source, as a (min, max) pair. -/
def POW_LIMIT : ℚ × ℚ := (-20, 15)

/-- Modelled from the spec: `strict_range` from `pymeasure.instruments.validators`
(the validators module is not under `src/`). The spec says a numeric write
"fails with `OutOfRangeError` if `candidate < min or candidate > max`" and an
accepted value passes through to the command unmodified. -/
def strict_range (value : ℚ) (values : ℚ × ℚ) : Except PymeasureError ℚ :=
  if value < values.1 ∨ value > values.2 then .error .OutOfRangeError
  else .ok value

/-- Modelled from the spec: `strict_discrete_set` from
`pymeasure.instruments.validators` (not under `src/`). The spec says a discrete
write "fails with `InvalidChoiceError` if `candidate` is not exactly one of the
allowed set (case-sensitive match)". -/
def strict_discrete_set (value : String) (values : List String) :
    Except PymeasureError String :=
  if value ∈ values then .ok value else .error .InvalidChoiceError

/-!
### Numeric formatting

The driver's write templates use Python `%`-formatting: `%g` (general float
format) for power, `%e` (scientific notation) for frequency, `%s` for the
discrete controls. CPython's formatter is external library code; the
functions below are modelled from the spec: "power uses general float
formatting; frequency uses scientific-notation formatting", rendered here
over `ℚ` with 6 significant / fractional digits as in C's `%g`/`%e`
defaults. Rounding is half-up on the rational value (CPython rounds the
binary double half-to-even; no claim below depends on the rounding mode).
All recursion is fuel-based and structural so that the kernel can evaluate
concrete commands.
-/

/-- The character for the decimal digit `d % 10`-ish; callers pass `d < 10`. -/
def digitChar (d : ℕ) : Char :=
  if d = 0 then '0' else if d = 1 then '1' else if d = 2 then '2'
  else if d = 3 then '3' else if d = 4 then '4' else if d = 5 then '5'
  else if d = 6 then '6' else if d = 7 then '7' else if d = 8 then '8'
  else '9'

/-- Fuel-based accumulator loop extracting decimal digits of `n`, most
significant first. `fuel ≥ number of digits of n` renders all of `n`. -/
def natStrAux : ℕ → ℕ → List Char → List Char
  | 0, _, acc => acc
  | fuel + 1, n, acc =>
    if n = 0 then acc else natStrAux fuel (n / 10) (digitChar (n % 10) :: acc)

/-- Decimal rendering of a natural number. -/
def natStrL (n : ℕ) : List Char :=
  if n = 0 then ['0'] else natStrAux (n + 1) n []

/-- Number of decimal digits of `n` (fuel-based; `digitCount n n` is exact). -/
def digitCount : ℕ → ℕ → ℕ
  | 0, _ => 1
  | fuel + 1, n => if n < 10 then 1 else digitCount fuel (n / 10) + 1

/-- For `1 ≤ n < d`: the least `m ≥ 1` with `d ≤ n * 10 ^ m` (fuel-based). -/
def expDown : ℕ → ℕ → ℕ → ℕ
  | 0, _, _ => 1
  | fuel + 1, n, d => if d ≤ n * 10 then 1 else expDown fuel (n * 10) d + 1

/-- The decimal exponent of `n / d` (for `n ≥ 1`, `d ≥ 1`): the unique `k`
with `10 ^ k ≤ n / d < 10 ^ (k + 1)`. -/
def decExp (n d : ℕ) : ℤ :=
  if d ≤ n then (digitCount (n / d) (n / d) : ℤ) - 1
  else -(expDown (digitCount d d + 1) n d : ℤ)

/-- `round (a / b)`, half away from zero, on naturals (`b ≠ 0`). -/
def roundDiv (a b : ℕ) : ℕ := (2 * a + b) / (2 * b)

/-- `round (n / d * 10 ^ (p - 1 - k))` computed on naturals. -/
def scaledMant (n d : ℕ) (k : ℤ) (p : ℕ) : ℕ :=
  let sh : ℤ := (p : ℤ) - 1 - k
  if 0 ≤ sh then roundDiv (n * 10 ^ sh.toNat) d
  else roundDiv n (d * 10 ^ (-sh).toNat)

/-- The `p`-significant-digit decimal mantissa of `n / d` together with its
decimal exponent, mantissa in `[10 ^ (p-1), 10 ^ p)` (rounding overflow such
as `9.9999997 → 10` bumps the exponent). -/
def mantExp (n d : ℕ) (p : ℕ) : ℕ × ℤ :=
  let k := decExp n d
  let m := scaledMant n d k p
  if 10 ^ p ≤ m then (10 ^ (p - 1), k + 1) else (m, k)

/-- Drop trailing decimal zeros of a mantissa (fuel-based), as `%g` does. -/
def stripZeros : ℕ → ℕ → ℕ
  | 0, m => m
  | fuel + 1, m => if m % 10 = 0 ∧ 10 ≤ m then stripZeros fuel (m / 10) else m

/-- The exponent suffix of `%e`/`%g` output: sign, then at least two digits. -/
def expSuffixChars (k : ℤ) : List Char :=
  (if k < 0 then ['-'] else ['+']) ++
    (if k.natAbs < 10 then '0' :: natStrL k.natAbs else natStrL k.natAbs)

/-- `%e` body: sign, the digits `m` of the 7-digit mantissa with a point
after the leading digit, then the exponent suffix. -/
def pctECore (sign : List Char) (m : ℕ) (k : ℤ) : List Char :=
  match natStrL m with
  | [] => sign
  | c :: rest => sign ++ [c] ++ ['.'] ++ rest ++ ['e'] ++ expSuffixChars k

/-- Modelled from the spec: Python `%e` scientific-notation formatting
(six fractional digits, two-or-more exponent digits), as a character list. -/
def pctEChars (q : ℚ) : List Char :=
  if q = 0 then ['0', '.', '0', '0', '0', '0', '0', '0', 'e', '+', '0', '0']
  else
    pctECore (if q < 0 then ['-'] else [])
      (mantExp q.num.natAbs q.den 7).1 (mantExp q.num.natAbs q.den 7).2

/-- Modelled from the spec: Python `%e` scientific-notation formatting. -/
def pctE (q : ℚ) : String := ⟨pctEChars q⟩

/-- `%g` body: given the sign, the stripped significant digits `ds` and the
decimal exponent `k`, lay the digits out in fixed notation when
`-4 ≤ k < 6` and in scientific notation otherwise. -/
def pctGCore (sign ds : List Char) (k : ℤ) : List Char :=
  if -4 ≤ k ∧ k < 6 then
    if 0 ≤ k then
      if ds.length ≤ k.toNat + 1 then
        sign ++ ds ++ List.replicate (k.toNat + 1 - ds.length) '0'
      else
        sign ++ ds.take (k.toNat + 1) ++ ['.'] ++ ds.drop (k.toNat + 1)
    else
      sign ++ ['0', '.'] ++ List.replicate ((-k).toNat - 1) '0' ++ ds
  else
    match ds with
    | [] => sign
    | c :: rest =>
      sign ++ [c] ++ (if rest = [] then [] else '.' :: rest) ++ ['e'] ++
        expSuffixChars k

/-- Modelled from the spec: Python `%g` general float formatting (six
significant digits, trailing zeros stripped, scientific notation when the
decimal exponent is below `-4` or at least `6`), as a character list. -/
def pctGChars (q : ℚ) : List Char :=
  if q = 0 then ['0']
  else
    pctGCore (if q < 0 then ['-'] else [])
      (natStrL (stripZeros 6 (mantExp q.num.natAbs q.den 6).1))
      (mantExp q.num.natAbs q.den 6).2

/-- Modelled from the spec: Python `%g` general float formatting. -/
def pctG (q : ℚ) : String := ⟨pctGChars q⟩

/-!
### Command strings and the control table

Every literal below is copied verbatim from the driver source
(`apsinXXG.py`, the `Instrument.control` declarations and the two RF
methods).
-/

def power_get_command : String := "SOUR:POW:LEV:IMM:AMPL?;"

def power_set_command : String := "SOUR:POW:LEV:IMM:AMPL %gdBm;"

def frequency_get_command : String := "SOUR:FREQ:CW?;"

def frequency_set_command : String := "SOUR:FREQ:CW %eHz;"

def blanking_get_command : String := ":OUTP:BLAN:STAT?"

def blanking_set_command : String := ":OUTP:BLAN:STAT %s"

def reference_output_get_command : String := "SOUR:ROSC:OUTP:STAT?"

def reference_output_set_command : String := "SOUR:ROSC:OUTP:STAT %s"

/-- `values=['ON', 'OFF']` of the two discrete controls in the source. -/
def ONOFF_VALUES : List String := ["ON", "OFF"]

/-- `"SOUR:POW:LEV:IMM:AMPL %gdBm;" % v`: the power write template with the
single `%g` placeholder instantiated. -/
def power_write_string (v : ℚ) : String :=
  "SOUR:POW:LEV:IMM:AMPL " ++ pctG v ++ "dBm;"

/-- `"SOUR:FREQ:CW %eHz;" % v`: the frequency write template instantiated. -/
def frequency_write_string (v : ℚ) : String :=
  "SOUR:FREQ:CW " ++ pctE v ++ "Hz;"

/-- `":OUTP:BLAN:STAT %s" % v`: the blanking write template instantiated. -/
def blanking_write_string (v : String) : String :=
  ":OUTP:BLAN:STAT " ++ v

/-- `"SOUR:ROSC:OUTP:STAT %s" % v`: the reference-output write template
instantiated. -/
def reference_output_write_string (v : String) : String :=
  "SOUR:ROSC:OUTP:STAT " ++ v

/-- One `Instrument.control` declaration of the driver: the spec's
`ControlSpec` (`mutable_bounds` is the source's `dynamic=True` flag). -/
structure ControlSpec where
  name : String
  get_command : String
  set_command : String
  dynamic : Bool
  deriving DecidableEq, Repr

/-- The four controls declared by `APSINXXG`, in source order. -/
def controls : List ControlSpec :=
  [⟨"power", power_get_command, power_set_command, true⟩,
   ⟨"frequency", frequency_get_command, frequency_set_command, true⟩,
   ⟨"blanking", blanking_get_command, blanking_set_command, false⟩,
   ⟨"reference_output", reference_output_get_command,
     reference_output_set_command, false⟩]

/-!
### Instrument state and operations

An `APSINXXG` instance: its per-instance numeric bounds (initialised from
the class-level defaults, independently mutable because `dynamic=True`),
any other plain attributes assigned to the instance, and the transport
modelled as the list of command strings written so far. The write/override
plumbing itself lives in the pymeasure framework (not under `src/`) and is
modelled from the spec, with every command string and bound taken from the
driver source.
-/

structure APSINXXG where
  power_values : ℚ × ℚ
  frequency_values : ℚ × ℚ
  extra_attrs : List (String × (ℚ × ℚ))
  writes : List String
  deriving DecidableEq, Repr

/-- A freshly constructed instance: class-level default bounds, nothing
written yet. -/
def mkAPSINXXG : APSINXXG :=
  { power_values := POW_LIMIT
    frequency_values := FREQ_LIMIT
    extra_attrs := []
    writes := [] }

/-- Modelled from the spec: the write operation of a numeric control
(`Instrument.control` setter, not under `src/`) — validate the candidate
against the instance's current bounds, then send the formatted command;
on validation failure no transport write is issued and the state is
returned unchanged. Instantiated for `power`. -/
def set_power (s : APSINXXG) (v : ℚ) : APSINXXG × Option PymeasureError :=
  match strict_range v s.power_values with
  | .ok w => ({ s with writes := s.writes ++ [power_write_string w] }, none)
  | .error e => (s, some e)

/-- Modelled from the spec: numeric-control write, instantiated for
`frequency`. -/
def set_frequency (s : APSINXXG) (v : ℚ) : APSINXXG × Option PymeasureError :=
  match strict_range v s.frequency_values with
  | .ok w => ({ s with writes := s.writes ++ [frequency_write_string w] }, none)
  | .error e => (s, some e)

/-- Modelled from the spec: the write operation of a discrete control,
instantiated for `blanking` (`values=['ON', 'OFF']` from the source). -/
def set_blanking (s : APSINXXG) (v : String) : APSINXXG × Option PymeasureError :=
  match strict_discrete_set v ONOFF_VALUES with
  | .ok w => ({ s with writes := s.writes ++ [blanking_write_string w] }, none)
  | .error e => (s, some e)

/-- Modelled from the spec: discrete-control write, instantiated for
`reference_output`. -/
def set_reference_output (s : APSINXXG) (v : String) :
    APSINXXG × Option PymeasureError :=
  match strict_discrete_set v ONOFF_VALUES with
  | .ok w =>
    ({ s with writes := s.writes ++ [reference_output_write_string w] }, none)
  | .error e => (s, some e)

/-- `enable_rf`: `self.write("OUTP:STAT 1")` — one write-only exchange, no
response read, no return value (the source method body verbatim). -/
def enable_rf (s : APSINXXG) : APSINXXG :=
  { s with writes := s.writes ++ ["OUTP:STAT 1"] }

/-- `disable_rf`: `self.write("OUTP:STAT 0")` (the source method body
verbatim). -/
def disable_rf (s : APSINXXG) : APSINXXG :=
  { s with writes := s.writes ++ ["OUTP:STAT 0"] }

/-- Modelled from the spec: assigning an attribute on the instance
(the dynamic-property machinery of `CommonBase`, not under `src/`).
`<control>_values` for a control flagged dynamic replaces that control's
bounds on this instance; for a control not flagged dynamic the assignment
fails with `UnsupportedOverrideError` and changes nothing; any other name
is stored as a plain instance attribute, touching neither the bounds nor
the transport. -/
def instrument_setattr (s : APSINXXG) (attr : String) (value : ℚ × ℚ) :
    APSINXXG × Option PymeasureError :=
  match controls.find? (fun c => attr = c.name ++ "_values") with
  | some c =>
    if c.dynamic then
      (if c.name = "power" then { s with power_values := value }
       else { s with frequency_values := value }, none)
    else (s, some .UnsupportedOverrideError)
  | none => ({ s with extra_attrs := s.extra_attrs ++ [(attr, value)] }, none)

/-!
### Character-set facts about the formatters

Both formatters only ever emit digits, signs, a decimal point and the
exponent marker — in particular no whitespace — and the formatted write
commands therefore carry no surrounding whitespace.
-/

/-- Every character the numeric formatters may emit. -/
def fmtChars : List Char :=
  ['0', '1', '2', '3', '4', '5', '6', '7', '8', '9', '-', '+', '.', 'e']

/-- Whitespace test on a character. -/
def isWSChar (c : Char) : Bool :=
  c = ' ' || c = '\t' || c = '\n' || c = '\r'

/-- Whitespace test on an optional boundary character. -/
def optWS : Option Char → Bool
  | none => false
  | some c => isWSChar c

/-- Whether a string starts or ends with a whitespace character. -/
def hasSurroundingWS (s : String) : Bool :=
  optWS s.data.head? || optWS s.data.getLast?

theorem digitChar_mem_fmtChars (d : ℕ) : digitChar d ∈ fmtChars := by
  unfold digitChar
  repeat' split
  all_goals decide

theorem natStrAux_mem_fmtChars (fuel : ℕ) :
    ∀ (n : ℕ) (acc : List Char), (∀ c ∈ acc, c ∈ fmtChars) →
      ∀ c ∈ natStrAux fuel n acc, c ∈ fmtChars := by
  induction fuel with
  | zero => exact fun n acc h c hc => h c hc
  | succ fuel ih =>
    intro n acc h c hc
    unfold natStrAux at hc
    split at hc
    · exact h c hc
    · refine ih _ _ ?_ c hc
      intro x hx
      rcases List.mem_cons.mp hx with rfl | hx
      · exact digitChar_mem_fmtChars _
      · exact h x hx

theorem natStrL_mem_fmtChars (n : ℕ) : ∀ c ∈ natStrL n, c ∈ fmtChars := by
  intro c hc
  unfold natStrL at hc
  split at hc
  · simp only [List.mem_singleton] at hc
    subst hc; decide
  · exact natStrAux_mem_fmtChars _ _ _ (by simp) c hc

theorem expSuffixChars_mem_fmtChars (k : ℤ) :
    ∀ c ∈ expSuffixChars k, c ∈ fmtChars := by
  intro c hc
  unfold expSuffixChars at hc
  rcases List.mem_append.mp hc with h | h
  · split at h <;> (simp only [List.mem_singleton] at h; subst h; decide)
  · split at h
    · rcases List.mem_cons.mp h with rfl | h
      · decide
      · exact natStrL_mem_fmtChars _ c h
    · exact natStrL_mem_fmtChars _ c h

theorem pctECore_mem_fmtChars (sign : List Char) (m : ℕ) (k : ℤ)
    (hs : ∀ c ∈ sign, c ∈ fmtChars) :
    ∀ c ∈ pctECore sign m k, c ∈ fmtChars := by
  intro c hc
  unfold pctECore at hc
  split at hc
  · exact hs c hc
  · rename_i hd rest heq
    have hds : ∀ x ∈ hd :: rest, x ∈ fmtChars := by
      rw [← heq]; exact natStrL_mem_fmtChars m
    simp only [List.append_assoc, List.mem_append, List.mem_singleton,
      List.mem_cons, List.not_mem_nil, or_false] at hc
    rcases hc with hc | hc | hc | hc | hc | hc
    · exact hs c hc
    · exact hds c (hc ▸ List.mem_cons_self hd rest)
    · subst hc; decide
    · exact hds c (List.mem_cons_of_mem _ hc)
    · subst hc; decide
    · exact expSuffixChars_mem_fmtChars _ c hc

theorem pctEChars_mem_fmtChars (q : ℚ) : ∀ c ∈ pctEChars q, c ∈ fmtChars := by
  intro c hc
  unfold pctEChars at hc
  split at hc
  · fin_cases hc <;> decide
  · refine pctECore_mem_fmtChars _ _ _ ?_ c hc
    intro x hx
    split at hx <;> simp only [List.mem_singleton, List.not_mem_nil] at hx
    subst hx; decide

theorem pctGCore_mem_fmtChars (sign ds : List Char) (k : ℤ)
    (hs : ∀ c ∈ sign, c ∈ fmtChars) (hds : ∀ c ∈ ds, c ∈ fmtChars) :
    ∀ c ∈ pctGCore sign ds k, c ∈ fmtChars := by
  intro c hc
  unfold pctGCore at hc
  split at hc
  · split at hc
    · split at hc
      · simp only [List.append_assoc, List.mem_append] at hc
        rcases hc with hc | hc | hc
        · exact hs c hc
        · exact hds c hc
        · rw [List.eq_of_mem_replicate hc]; decide
      · simp only [List.append_assoc, List.mem_append, List.mem_singleton] at hc
        rcases hc with hc | hc | rfl | hc
        · exact hs c hc
        · exact hds c (List.take_subset _ _ hc)
        · decide
        · exact hds c (List.drop_subset _ _ hc)
    · simp only [List.append_assoc, List.mem_append, List.mem_cons,
        List.not_mem_nil, or_false] at hc
      rcases hc with hc | (rfl | rfl) | hc | hc
      · exact hs c hc
      · decide
      · decide
      · rw [List.eq_of_mem_replicate hc]; decide
      · exact hds c hc
  · split at hc
    · exact hs c hc
    · rename_i d0 tl
      split at hc
      · simp only [List.append_assoc, List.mem_append, List.mem_singleton,
          List.nil_append, List.mem_cons, List.not_mem_nil, or_false] at hc
        rcases hc with hc | rfl | rfl | hc
        · exact hs c hc
        · exact hds c (List.mem_cons_self _ _)
        · decide
        · exact expSuffixChars_mem_fmtChars _ c hc
      · simp only [List.append_assoc, List.mem_append, List.mem_singleton,
          List.mem_cons, List.not_mem_nil, or_false] at hc
        rcases hc with hc | rfl | (rfl | hc) | rfl | hc
        · exact hs c hc
        · exact hds c (List.mem_cons_self _ _)
        · decide
        · exact hds c (List.mem_cons_of_mem _ hc)
        · decide
        · exact expSuffixChars_mem_fmtChars _ c hc

theorem pctGChars_mem_fmtChars (q : ℚ) : ∀ c ∈ pctGChars q, c ∈ fmtChars := by
  intro c hc
  unfold pctGChars at hc
  split at hc
  · simp only [List.mem_singleton] at hc; subst hc; decide
  · refine pctGCore_mem_fmtChars _ _ _ ?_ (natStrL_mem_fmtChars _) c hc
    intro x hx
    split at hx <;> simp only [List.mem_singleton, List.not_mem_nil] at hx
    subst hx; decide

theorem fmtChars_not_WS : ∀ c ∈ fmtChars, isWSChar c = false := by decide

theorem pctG_no_WS (q : ℚ) : ∀ c ∈ (pctG q).data, isWSChar c = false :=
  fun c hc => fmtChars_not_WS c (pctGChars_mem_fmtChars q c hc)

theorem pctE_no_WS (q : ℚ) : ∀ c ∈ (pctE q).data, isWSChar c = false :=
  fun c hc => fmtChars_not_WS c (pctEChars_mem_fmtChars q c hc)

theorem power_write_string_no_surrounding_WS (v : ℚ) :
    hasSurroundingWS (power_write_string v) = false := by
  unfold power_write_string hasSurroundingWS
  rw [String.data_append, String.data_append, List.head?_append,
    List.head?_append, List.getLast?_append, List.getLast?_append]
  rfl

theorem frequency_write_string_no_surrounding_WS (v : ℚ) :
    hasSurroundingWS (frequency_write_string v) = false := by
  unfold frequency_write_string hasSurroundingWS
  rw [String.data_append, String.data_append, List.head?_append,
    List.head?_append, List.getLast?_append, List.getLast?_append]
  rfl

/-!
### The claims
-/

/-- C1: for each numeric control (power, frequency), writing a candidate
value strictly outside the instance's current `[min, max]` bounds fails
with `OutOfRangeError`, the transport log is untouched (no write issued)
and the instrument state is returned unchanged. -/
theorem out_of_range_write_rejected (s : APSINXXG) :
    (∀ v : ℚ, v < s.power_values.1 ∨ s.power_values.2 < v →
      set_power s v = (s, some .OutOfRangeError)) ∧
    (∀ v : ℚ, v < s.frequency_values.1 ∨ s.frequency_values.2 < v →
      set_frequency s v = (s, some .OutOfRangeError)) := by
  constructor
  · intro v h
    simp only [set_power, strict_range, gt_iff_lt]
    rw [if_pos h]
  · intro v h
    simp only [set_frequency, strict_range, gt_iff_lt]
    rw [if_pos h]

/-- C1 witness: `power = 16` (above the default max 15) and
`frequency = 1` (below the default min 100 kHz) are both rejected on a
fresh instance without any transport write. -/
theorem out_of_range_write_rejected_witness :
    set_power mkAPSINXXG 16 = (mkAPSINXXG, some .OutOfRangeError) ∧
    set_frequency mkAPSINXXG 1 = (mkAPSINXXG, some .OutOfRangeError) :=
  ⟨(out_of_range_write_rejected mkAPSINXXG).1 16 (Or.inr (by decide)),
   (out_of_range_write_rejected mkAPSINXXG).2 1 (Or.inl (by decide))⟩

/-- C2: for each discrete control (blanking, reference_output), writing any
value that is not exactly (case-sensitively) `"ON"` or `"OFF"` fails with
`InvalidChoiceError` and issues no transport write; in particular the
lowercase forms `"on"` and `"off"` are rejected. -/
theorem invalid_choice_write_rejected (s : APSINXXG) :
    (∀ v : String, v ∉ ONOFF_VALUES →
      set_blanking s v = (s, some .InvalidChoiceError)) ∧
    (∀ v : String, v ∉ ONOFF_VALUES →
      set_reference_output s v = (s, some .InvalidChoiceError)) ∧
    set_blanking s "on" = (s, some .InvalidChoiceError) ∧
    set_blanking s "off" = (s, some .InvalidChoiceError) ∧
    set_reference_output s "on" = (s, some .InvalidChoiceError) ∧
    set_reference_output s "off" = (s, some .InvalidChoiceError) := by
  have hb : ∀ v : String, v ∉ ONOFF_VALUES →
      set_blanking s v = (s, some .InvalidChoiceError) := by
    intro v h
    simp only [set_blanking, strict_discrete_set]
    rw [if_neg h]
  have hr : ∀ v : String, v ∉ ONOFF_VALUES →
      set_reference_output s v = (s, some .InvalidChoiceError) := by
    intro v h
    simp only [set_reference_output, strict_discrete_set]
    rw [if_neg h]
  exact ⟨hb, hr, hb "on" (by decide), hb "off" (by decide),
    hr "on" (by decide), hr "off" (by decide)⟩

/-- C2 witness: the lowercase `"on"` is rejected by `blanking` and an
arbitrary other string by `reference_output`, on a fresh instance. -/
theorem invalid_choice_write_rejected_witness :
    set_blanking mkAPSINXXG "on" = (mkAPSINXXG, some .InvalidChoiceError) ∧
    set_reference_output mkAPSINXXG "1" =
      (mkAPSINXXG, some .InvalidChoiceError) :=
  ⟨(invalid_choice_write_rejected mkAPSINXXG).1 "on" (by decide),
   (invalid_choice_write_rejected mkAPSINXXG).2.1 "1" (by decide)⟩

/-- C3: overriding the bounds of `blanking` (not flagged dynamic) fails
with `UnsupportedOverrideError` and changes nothing, and the same failure
occurs for every control of the table that is not flagged dynamic. -/
theorem override_nonmutable_rejected (s : APSINXXG) (w : ℚ × ℚ) :
    instrument_setattr s "blanking_values" w =
      (s, some .UnsupportedOverrideError) ∧
    ∀ c ∈ controls, c.dynamic = false →
      instrument_setattr s (c.name ++ "_values") w =
        (s, some .UnsupportedOverrideError) := by
  refine ⟨rfl, ?_⟩
  intro c hc hdyn
  fin_cases hc
  · exact absurd hdyn (by decide)
  · exact absurd hdyn (by decide)
  · rfl
  · rfl

/-- C3 witness: on a fresh instance, the non-dynamic `reference_output`
control (taken from the control table) rejects a bounds override. -/
theorem override_nonmutable_rejected_witness :
    instrument_setattr mkAPSINXXG ("reference_output" ++ "_values") (1, 2) =
      (mkAPSINXXG, some .UnsupportedOverrideError) :=
  (override_nonmutable_rejected mkAPSINXXG (1, 2)).2
    ⟨"reference_output", reference_output_get_command,
      reference_output_set_command, false⟩ (by decide) rfl

/-- C4: on a fresh instance the frequency-bounds override to
`[10e3, 20e9]` succeeds, after which writing `frequency = 15e9` is
validated and transmitted (the `%e`-formatted command is appended to the
transport log), whereas the same write on an instance still holding the
default bounds `[100e3, 12e9]` fails with `OutOfRangeError` and writes
nothing — the override is scoped to the overridden instance. -/
theorem frequency_override_permits_write :
    (instrument_setattr mkAPSINXXG "frequency_values"
        (10000, 20000000000)).2 = none ∧
    (set_frequency (instrument_setattr mkAPSINXXG "frequency_values"
        (10000, 20000000000)).1 15000000000).2 = none ∧
    (set_frequency (instrument_setattr mkAPSINXXG "frequency_values"
        (10000, 20000000000)).1 15000000000).1.writes =
      ["SOUR:FREQ:CW 1.500000e+10Hz;"] ∧
    set_frequency mkAPSINXXG 15000000000 =
      (mkAPSINXXG, some .OutOfRangeError) := by
  refine ⟨rfl, ?_, ?_, ?_⟩ <;> decide

/-- C5: `enable_rf()` sends exactly the single command `OUTP:STAT 1` and
`disable_rf()` exactly `OUTP:STAT 0`; each appends one write-only exchange
to the transport log, reads nothing, changes nothing else, and returns no
value (the operations are pure state transformers into the same record). -/
theorem rf_commands_exact (s : APSINXXG) :
    enable_rf s = { s with writes := s.writes ++ ["OUTP:STAT 1"] } ∧
    disable_rf s = { s with writes := s.writes ++ ["OUTP:STAT 0"] } :=
  ⟨rfl, rfl⟩

/-- C6: under the default power bounds `[-20, 15]`, writing `power = 15`
(the inclusive upper bound) is accepted and transmitted, while
`power = 15.0001` fails with `OutOfRangeError` and transmits nothing. -/
theorem power_upper_bound_inclusive :
    (set_power mkAPSINXXG 15).2 = none ∧
    (set_power mkAPSINXXG 15).1.writes = ["SOUR:POW:LEV:IMM:AMPL 15dBm;"] ∧
    set_power mkAPSINXXG (mkRat 150001 10000) =
      (mkAPSINXXG, some .OutOfRangeError) := by
  refine ⟨?_, ?_, ?_⟩ <;> decide

/-- C7: the wire strings are exactly those of the spec's table — the power
query and `%g` write template, the frequency query and `%e` write template
(shown both literally and split around the placeholder) — and for every
value the formatted command has no surrounding whitespace and its
value part contains no whitespace character at all. -/
theorem wire_strings_exact :
    power_get_command = "SOUR:POW:LEV:IMM:AMPL?;" ∧
    power_set_command = "SOUR:POW:LEV:IMM:AMPL %gdBm;" ∧
    power_set_command = "SOUR:POW:LEV:IMM:AMPL " ++ "%g" ++ "dBm;" ∧
    frequency_get_command = "SOUR:FREQ:CW?;" ∧
    frequency_set_command = "SOUR:FREQ:CW %eHz;" ∧
    frequency_set_command = "SOUR:FREQ:CW " ++ "%e" ++ "Hz;" ∧
    (∀ v : ℚ,
      power_write_string v = "SOUR:POW:LEV:IMM:AMPL " ++ pctG v ++ "dBm;") ∧
    (∀ v : ℚ,
      frequency_write_string v = "SOUR:FREQ:CW " ++ pctE v ++ "Hz;") ∧
    (∀ v : ℚ, hasSurroundingWS (power_write_string v) = false) ∧
    (∀ v : ℚ, hasSurroundingWS (frequency_write_string v) = false) ∧
    (∀ v : ℚ, ∀ c ∈ (pctG v).data, isWSChar c = false) ∧
    (∀ v : ℚ, ∀ c ∈ (pctE v).data, isWSChar c = false) :=
  ⟨rfl, rfl, rfl, rfl, rfl, rfl, fun _ => rfl, fun _ => rfl,
   power_write_string_no_surrounding_WS,
   frequency_write_string_no_surrounding_WS,
   pctG_no_WS, pctE_no_WS⟩

/-- C7 witness: the character-membership conjuncts instantiated at
`power = 15` and `frequency = 15e9`. -/
theorem wire_strings_exact_witness :
    isWSChar '1' = false ∧ isWSChar 'e' = false :=
  ⟨wire_strings_exact.2.2.2.2.2.2.2.2.2.2.1 15 '1' (by decide),
   wire_strings_exact.2.2.2.2.2.2.2.2.2.2.2 15000000000 'e' (by decide)⟩

/-- C8: the construction-time defaults are exactly `[100e3, 12e9]` for
frequency and `[-20, 15]` for power, and a fresh instance starts from
exactly these class-level limits. -/
theorem default_bounds_exact :
    FREQ_LIMIT = (100000, 12000000000) ∧
    POW_LIMIT = (-20, 15) ∧
    mkAPSINXXG.frequency_values = FREQ_LIMIT ∧
    mkAPSINXXG.power_values = POW_LIMIT :=
  ⟨rfl, rfl, rfl, rfl⟩

/-- C9: the strict validators are the identity on accepted values — an
accepted candidate is embedded in the transmitted command unmodified (no
clamping, no coercion, no case normalisation): the write of an accepted `v`
sends exactly the control's template formatted with `v` itself. -/
theorem accepted_value_sent_verbatim (s : APSINXXG) :
    (∀ v : ℚ, s.power_values.1 ≤ v → v ≤ s.power_values.2 →
      strict_range v s.power_values = .ok v ∧
      set_power s v =
        ({ s with writes := s.writes ++ [power_write_string v] }, none)) ∧
    (∀ v : ℚ, s.frequency_values.1 ≤ v → v ≤ s.frequency_values.2 →
      strict_range v s.frequency_values = .ok v ∧
      set_frequency s v =
        ({ s with writes := s.writes ++ [frequency_write_string v] }, none)) ∧
    (∀ v : String, v ∈ ONOFF_VALUES →
      strict_discrete_set v ONOFF_VALUES = .ok v ∧
      set_blanking s v =
        ({ s with writes := s.writes ++ [blanking_write_string v] }, none)) := by
  refine ⟨fun v h1 h2 => ?_, fun v h1 h2 => ?_, fun v h => ?_⟩
  · have hok : strict_range v s.power_values = .ok v := by
      unfold strict_range
      rw [if_neg (by push_neg; exact ⟨h1, h2⟩)]
    exact ⟨hok, by simp only [set_power, hok]⟩
  · have hok : strict_range v s.frequency_values = .ok v := by
      unfold strict_range
      rw [if_neg (by push_neg; exact ⟨h1, h2⟩)]
    exact ⟨hok, by simp only [set_frequency, hok]⟩
  · have hok : strict_discrete_set v ONOFF_VALUES = .ok v := by
      unfold strict_discrete_set
      rw [if_pos h]
    exact ⟨hok, by simp only [set_blanking, hok]⟩

/-- C9 witness: `power = 0` is sent verbatim on a fresh instance, and
`"ON"` passes the discrete validator unchanged. -/
theorem accepted_value_sent_verbatim_witness :
    set_power mkAPSINXXG 0 =
      ({ mkAPSINXXG with
          writes := mkAPSINXXG.writes ++ [power_write_string 0] }, none) ∧
    strict_discrete_set "ON" ONOFF_VALUES = .ok "ON" :=
  ⟨((accepted_value_sent_verbatim mkAPSINXXG).1 0
      (by decide) (by decide)).2,
   ((accepted_value_sent_verbatim mkAPSINXXG).2.2 "ON" (by decide)).1⟩

/-- C10: assigning the misspelled attribute `frequeny_values` from the
class docstring's example raises no error, issues no transport write, and
leaves the frequency control's effective bounds unchanged — a subsequent
frequency write is validated exactly as before the assignment. -/
theorem misspelled_override_is_silent_noop (s : APSINXXG) (w : ℚ × ℚ) :
    (instrument_setattr s "frequeny_values" w).2 = none ∧
    (instrument_setattr s "frequeny_values" w).1.writes = s.writes ∧
    (instrument_setattr s "frequeny_values" w).1.frequency_values =
      s.frequency_values ∧
    ∀ v : ℚ,
      (set_frequency (instrument_setattr s "frequeny_values" w).1 v).2 =
        (set_frequency s v).2 := by
  refine ⟨rfl, rfl, rfl, fun v => ?_⟩
  show (set_frequency
    { s with extra_attrs := s.extra_attrs ++ [("frequeny_values", w)] } v).2 =
    (set_frequency s v).2
  unfold set_frequency
  cases strict_range v s.frequency_values <;> rfl

end APSIN

/-!
### Model validation on concrete inputs

Concrete evaluations of the embedded validators and formatters,
cross-checked against CPython's `%`-formatting of the same values.
-/

example : APSIN.strict_range 15 APSIN.POW_LIMIT = .ok 15 := by decide
example : APSIN.strict_range (mkRat 150001 10000) APSIN.POW_LIMIT =
    .error .OutOfRangeError := by decide
example : APSIN.pctG 15 = "15" := by decide
example : APSIN.pctG (-20) = "-20" := by decide
example : APSIN.pctG (mkRat 1 2) = "0.5" := by decide
example : APSIN.pctG (mkRat 3 2) = "1.5" := by decide
example : APSIN.pctE 15000000000 = "1.500000e+10" := by decide
example : APSIN.pctE 5000000000 = "5.000000e+09" := by decide
example : APSIN.pctE (mkRat 1 3) = "3.333333e-01" := by decide
example : APSIN.pctG (mkRat 1 3) = "0.333333" := by decide
example : APSIN.pctG 1500000 = "1.5e+06" := by decide
example : APSIN.pctG (mkRat 1 100000) = "1e-05" := by decide
example : APSIN.pctE 0 = "0.000000e+00" := by decide
example : APSIN.pctG 0 = "0" := by decide
example : APSIN.pctG (mkRat 2 3) = "0.666667" := by decide
